import Mathlib

/-!
Shallow embedding of the ForgeLens content-lifecycle core.

Python strings are modelled as Lean `String`; Python-specific string
operations (slicing by character, `str.strip()` truthiness, `.upper()`)
are modelled character-listwise, matching CPython semantics.  External
calls (Azure Content Safety, the LLM reviewer, fal.ai, Instagram Graph,
Service Bus) are oracles passed in as parameters: an `Except String α`
value is `.error e` when the call raises an exception with message `e`.
Timestamps written by the code are irrelevant to every property below and
are omitted from the record model.
-/

namespace ForgeLens

/-- Python `text[:n]`: the first `n` characters. -/
def pyTake (s : String) (n : Nat) : String := String.mk (s.data.take n)

/-- Truthiness of Python `text.strip()` is false iff every character is
whitespace (also when the text is empty). -/
def isAllWhitespace (s : String) : Bool := s.data.all Char.isWhitespace

/-- The guard `if not text or not text.strip()` in `analyze_text`. -/
def isBlankText (s : String) : Bool := s.data.isEmpty || s.data.all Char.isWhitespace

/-- Python `str.strip()`: drop whitespace from both ends. -/
def pyStrip (s : String) : String :=
  String.mk (((s.data.dropWhile Char.isWhitespace).reverse.dropWhile Char.isWhitespace).reverse)

/-- Python `str.upper()` (ASCII suffices for the verdict strings used). -/
def pyUpper (s : String) : String := String.mk (s.data.map Char.toUpper)

/-! ## Content-safety service (src/services/content_safety_service.py) -/

/-- `SEVERITY_THRESHOLD = 2` — anything at or above this is a hard block. -/
def SEVERITY_THRESHOLD : Nat := 2

/-- The `SafetyResult` dataclass. `categories` is the insertion-ordered
category → severity dict, `blocked_categories` the list built by the loop. -/
structure SafetyResult where
  safe : Bool := true
  categories : List (String × Nat) := []
  blocked_categories : List String := []
  error : Option String := none
deriving Repr, DecidableEq

/-- Oracle for the Azure Content Safety call: maps the analysed text to the
`categories_analysis` list (category name, severity with `or 0` applied), or
to a raised exception message. -/
abbrev SafetyCall := String → Except String (List (String × Nat))

/-- `categories[cat_name] = severity`: Python dict insert-or-overwrite,
keeping first-insertion order. -/
def dictInsert (m : List (String × Nat)) (k : String) (v : Nat) : List (String × Nat) :=
  if m.any (fun p => p.1 == k) then m.map (fun p => if p.1 == k then (k, v) else p)
  else m ++ [(k, v)]

/-- The `for item in response.categories_analysis` loop: build the
`categories` dict and the `blocked` list. -/
def collectCategories (items : List (String × Nat)) : List (String × Nat) × List String :=
  items.foldl
    (fun acc it =>
      (dictInsert acc.1 it.1 it.2,
       if SEVERITY_THRESHOLD ≤ it.2 then acc.2 ++ [it.1] else acc.2))
    ([], [])

/-- The categories a response blocks: exactly those whose severity is at or
above `SEVERITY_THRESHOLD`, in response order. -/
def blockedOf (items : List (String × Nat)) : List String :=
  (items.filter fun p => decide (SEVERITY_THRESHOLD ≤ p.2)).map Prod.fst

/-- `analyze_text` (content_safety_service.py lines 78-109).  The text is
truncated to 10 000 characters before the service call; a raised exception
is caught and yields `SafetyResult(safe=True, error=str(e))` (fail-open). -/
def analyze_text (svc : SafetyCall) (text : String) : SafetyResult :=
  if isBlankText text then {}
  else
    match svc (pyTake text 10000) with
    | .ok items =>
        let c := collectCategories items
        { safe := c.2.isEmpty, categories := c.1, blocked_categories := c.2, error := none }
    | .error e => { safe := true, error := some e }

/-- `analyze_image_from_url` (lines 112-151).  The oracle covers the image
download plus the analyze call; exceptions are caught fail-open. -/
def analyze_image_from_url (svc : SafetyCall) (image_url : String) : SafetyResult :=
  if image_url == "" then {}
  else
    match svc image_url with
    | .ok items =>
        let c := collectCategories items
        { safe := c.2.isEmpty, categories := c.1, blocked_categories := c.2, error := none }
    | .error e => { safe := true, error := some e }

/-! ## Content record (Cosmos document) -/

/-- `doc["hashtags"]` can be a list or a delimited string at different
lifecycle points (both `_doc_to_reviewable_text` and `_build_caption`
branch on `isinstance`). -/
inductive HashtagsVal where
  | asStr (s : String)
  | asList (l : List String)
deriving Repr, DecidableEq

/-- Python truthiness of the hashtags value. -/
def HashtagsVal.truthy : HashtagsVal → Bool
  | .asStr s => !(s == "")
  | .asList l => !l.isEmpty

/-- Projection of a Cosmos content document onto the fields the lifecycle
core reads or writes.  String fields that every creation path populates are
plain `String` (with `""` for Python `None`/absent where only truthiness is
observed); `media_review_status`, `generation_provider` and
`generation_mode` may be genuinely absent from a document and are `Option`. -/
structure ContentRecord where
  id : String := ""
  media_type : String := "image"
  post_type : String := "post"
  prompt : String := ""
  caption : String := ""
  description : String := ""
  hashtags : HashtagsVal := .asList []
  target_account_name : String := ""
  account : String := ""
  blob_url : String := ""
  blob_name : String := ""
  blob_urls : List String := []
  output_format : String := "png"
  generation_status : String := ""
  generation_provider : Option String := none
  generation_mode : Option String := none
  fal_request_id : String := ""
  fal_model_id : String := ""
  media_review_status : Option String := none
  media_reviewer_notes : String := ""
  approval_status : String := "pending"
  reviewer_notes : String := ""
  publish_status : String := "pending"
  instagram_media_id : String := ""
  instagram_container_id : String := ""
deriving Repr, DecidableEq

/-- `set_media_review_status` (cosmos_db_service.py lines 194-209):
update the review-status fields of the stored record. -/
def set_media_review_status (r : ContentRecord) (status notes : String) : ContentRecord :=
  { r with media_review_status := some status, media_reviewer_notes := notes }

/-- `set_approval_status` (media_metadata_service.py): update the human
approval status and reviewer notes. -/
def set_approval_status (r : ContentRecord) (status notes : String) : ContentRecord :=
  { r with approval_status := status, reviewer_notes := notes }

/-- `mark_content_published` (media_metadata_service.py lines 199-213). -/
def mark_content_published (r : ContentRecord) (media_id container_id : String) : ContentRecord :=
  { r with publish_status := "published", instagram_media_id := media_id,
           instagram_container_id := container_id }

/-! ## Content reviewer gate (src/agents/content_reviewer/tools.py) -/

/-- Outcome of the raw LLM call: a parsed JSON dict, a `json.JSONDecodeError`
on the raw response text, or any other raised exception. -/
inductive LLMCallOutcome where
  | parsed (verdict : Option String) (summary : String)
  | parseError (raw : String)
  | callError (e : String)
deriving Repr, DecidableEq

/-- The call raised or returned unparseable output. -/
def LLMCallOutcome.failed : LLMCallOutcome → Bool
  | .parsed _ _ => false
  | _ => true

/-- Parsed review dict: the fields the gate reads (`verdict` via `.get` with
a default, `summary` via `.get("summary", "")`). -/
structure LLMReview where
  verdict : Option String := none
  summary : String := ""
deriving Repr, DecidableEq

/-- `_llm_review_text` (tools.py lines 125-153): parse failures and raised
exceptions both degrade to a `NEEDS_REVISION` verdict. -/
def llm_review_text (outcome : LLMCallOutcome) : LLMReview :=
  match outcome with
  | .parsed v s => { verdict := v, summary := s }
  | .parseError raw =>
      { verdict := some "NEEDS_REVISION",
        summary := "LLM review parse error. Raw: " ++ pyTake raw 500 }
  | .callError e =>
      { verdict := some "NEEDS_REVISION", summary := "LLM review error: " ++ e }

/-- `_llm_review_image` (tools.py lines 156-184): same degradation with the
image-specific messages. -/
def llm_review_image (outcome : LLMCallOutcome) : LLMReview :=
  match outcome with
  | .parsed v s => { verdict := v, summary := s }
  | .parseError raw =>
      { verdict := some "NEEDS_REVISION",
        summary := "LLM image review parse error. Raw: " ++ pyTake raw 500 }
  | .callError e =>
      { verdict := some "NEEDS_REVISION", summary := "LLM image review error: " ++ e }

/-- `_doc_to_reviewable_text` (tools.py lines 191-209). -/
def doc_to_reviewable_text (doc : ContentRecord) : String :=
  let parts : List String :=
    (if doc.prompt ≠ "" then ["IMAGE/VIDEO PROMPT: " ++ doc.prompt] else []) ++
    (if doc.caption ≠ "" then ["CAPTION: " ++ doc.caption] else []) ++
    (if doc.hashtags.truthy then
      ["HASHTAGS: " ++
        (match doc.hashtags with
         | .asStr s => s
         | .asList l => String.intercalate " " (l.map (fun t => "#" ++ t)))]
     else []) ++
    (if doc.description ≠ "" then ["TOPIC: " ++ doc.description] else []) ++
    (if doc.media_type ≠ "" then ["MEDIA TYPE: " ++ doc.media_type] else []) ++
    (if doc.post_type ≠ "" then ["POST TYPE: " ++ doc.post_type] else [])
  String.intercalate "\n" parts

/-- `_doc_to_context` (tools.py lines 212-219). -/
def doc_to_context (doc : ContentRecord) : String :=
  let parts : List String :=
    (if doc.target_account_name ≠ "" then ["Account: " ++ doc.target_account_name] else []) ++
    (if doc.account ≠ "" then ["Account key: " ++ doc.account] else [])
  String.intercalate "; " parts

/-- `status_map.get(verdict, "needs_revision")` (tools.py lines 339-344). -/
def statusMap (verdict : String) : String :=
  if verdict == "APPROVED" then "approved"
  else if verdict == "REJECTED" then "rejected"
  else if verdict == "NEEDS_REVISION" then "needs_revision"
  else "needs_revision"

/-- External-call oracles for one run of the review gate. -/
structure ReviewEnv where
  textSvc : SafetyCall
  imageSvc : SafetyCall
  llmText : LLMCallOutcome
  llmImage : LLMCallOutcome

/-- Observable outcome of `review_generated_media`: the early-return error
(if any), the `set_media_review_status` write performed (status, notes),
the result fields, and which layer-2 LLM calls were made. -/
structure ReviewOutcome where
  errorMsg : Option String := none
  written : Option (String × String) := none
  verdict : Option String := none
  summary : String := ""
  image_content_safety : Option SafetyResult := none
  text_content_safety : Option SafetyResult := none
  llmTextCalled : Bool := false
  llmImageCalled : Bool := false
deriving Repr, DecidableEq

/-- `review_generated_media` (tools.py lines 276-349), for the record stored
under the requested content id (`none` = not found). -/
def review_generated_media (content_id : String) (store : Option ContentRecord)
    (env : ReviewEnv) : ReviewOutcome :=
  match store with
  | none => { errorMsg := some ("Content " ++ content_id ++ " not found in DB.") }
  | some doc =>
    if doc.blob_url == "" then
      { errorMsg := some "No blob_url found — media may not be generated yet." }
    else
      let image_safety? : Option SafetyResult :=
        if doc.media_type == "image" then some (analyze_image_from_url env.imageSvc doc.blob_url)
        else none
      match image_safety? with
      | some image_safety =>
        if !image_safety.safe then
          let summary := "Image blocked by Azure Content Safety. Categories: " ++
            String.intercalate ", " image_safety.blocked_categories
          { written := some ("rejected", summary), verdict := some "REJECTED",
            summary := summary, image_content_safety := some image_safety }
        else
          reviewTextAndLLM content_id doc env (some image_safety)
      | none => reviewTextAndLLM content_id doc env none
where
  /-- The text-safety layer and layer-2 LLM review shared by both
  media-type branches (tools.py lines 316-349). -/
  reviewTextAndLLM (_content_id : String) (doc : ContentRecord) (env : ReviewEnv)
      (image_safety? : Option SafetyResult) : ReviewOutcome :=
    let reviewable_text := doc_to_reviewable_text doc
    let text_safety? : Option SafetyResult :=
      if !(isAllWhitespace reviewable_text) then some (analyze_text env.textSvc reviewable_text)
      else none
    match text_safety? with
    | some text_safety =>
      if !text_safety.safe then
        let summary := "Text metadata blocked by Content Safety. Categories: " ++
          String.intercalate ", " text_safety.blocked_categories
        { written := some ("rejected", summary), verdict := some "REJECTED",
          summary := summary, image_content_safety := image_safety?,
          text_content_safety := some text_safety }
      else
        layer2 doc env image_safety? (some text_safety)
    | none => layer2 doc env image_safety? none
  /-- Layer 2: LLM vision review for images, text review otherwise. -/
  layer2 (doc : ContentRecord) (env : ReviewEnv)
      (image_safety? text_safety? : Option SafetyResult) : ReviewOutcome :=
    let isImage := doc.media_type == "image" && !(doc.blob_url == "")
    let llm := if isImage then llm_review_image env.llmImage else llm_review_text env.llmText
    let verdict := pyUpper (pyStrip (llm.verdict.getD "NEEDS_REVISION"))
    let mapped := statusMap verdict
    { written := some (mapped, llm.summary), verdict := some verdict,
      summary := llm.summary, image_content_safety := image_safety?,
      text_content_safety := text_safety?,
      llmImageCalled := isImage, llmTextCalled := !isImage }

/-! ## Publisher (src/agents/publisher/tools.py,
src/services/queue_triggers/publisher_trigger_service.py) -/

/-- One call to the external Instagram publish API. -/
inductive IGCall where
  | createImage (url caption : String)
  | createVideo (url caption : String)
  | createCarousel (children : List String) (caption : String)
  | checkStatus (container : String)
  | publishCall (container : String)
deriving Repr, DecidableEq

/-- Oracles for one publisher run: the Instagram Graph operations, the
configured account names, and the `ReviewQueueService.mark_published`
outcome (`.ok true` = the approved-queue message was found and the record
marked published inside `mark_published`; `.ok false` = the item was not in
the queue, so `mark_published` returned an `error` dict; `.error` = the
call raised). -/
structure IGEnv where
  createImageContainer : String → String → Except String String
  createVideoContainer : String → String → Except String String
  createCarouselContainer : List String → String → Except String String
  checkContainerStatus : String → Nat → Except String String
  publishContainer : String → Except String String
  accounts : List String
  markPublished : Except String Bool

/-- The result dict returned by `_publish_record` and friends, projected
onto the fields the claims observe (`""` = key absent). -/
structure PubResult where
  status : String := ""
  error : String := ""
  message : String := ""
  content_id : String := ""
  instagram_media_id : String := ""
  container_id : String := ""
deriving Repr, DecidableEq

/-- `_build_caption` (publisher/tools.py lines 28-40). -/
def build_caption (record : ContentRecord) : String :=
  let caption := pyStrip record.caption
  let hashtags_text :=
    match record.hashtags with
    | .asStr s => pyStrip s
    | .asList l => String.intercalate " " (l.filter (fun h => h ≠ ""))
  if hashtags_text ≠ "" ∧ caption = "" then hashtags_text
  else if hashtags_text ≠ "" ∧ caption ≠ "" then caption ++ "\n\n" ++ hashtags_text
  else caption

/-- The carousel child-container loop (publisher/tools.py lines 179-182):
`create_image_container(url, "")` per image URL, stopping at the first
raised exception. -/
def createChildren (env : IGEnv) : List String → Except String (List String) × List IGCall
  | [] => (.ok [], [])
  | u :: rest =>
    match env.createImageContainer u "" with
    | .error e => (.error e, [.createImage u ""])
    | .ok cid =>
      let r := createChildren env rest
      (r.1.map (cid :: ·), .createImage u "" :: r.2)

/-- Outcome of the bounded video-processing poll (lines 187-203). -/
inductive PollOutcome where
  | finished
  | errored (code : String)
  | timeout
deriving Repr, DecidableEq

/-- The `for _ in range(10)` container-status poll: `fuel` attempts
remaining, `attempt` the index of the next check.  Returns the loop
outcome (or a raised exception) and the number of status checks made. -/
def videoPoll (check : String → Nat → Except String String) (container : String) :
    Nat → Nat → Except String PollOutcome × Nat
  | 0, _ => (.ok .timeout, 0)
  | fuel + 1, attempt =>
    match check container attempt with
    | .error e => (.error e, 1)
    | .ok code =>
      if code == "FINISHED" then (.ok .finished, 1)
      else if code == "ERROR" then (.ok (.errored code), 1)
      else
        let r := videoPoll check container fuel (attempt + 1)
        (r.1, r.2 + 1)

/-- The body of the `try` block of `_publish_record` (lines 168-207) up to
obtaining `(container_id, media_id)`: dispatch by post_type/media_type.
`.error` covers both raised exceptions and the explicit error returns
inside the block (empty carousel, video ERROR status, video timeout);
the call trace is returned alongside. -/
def publishDispatch (record : ContentRecord) (caption_text media_url target : String)
    (env : IGEnv) : Except String (String × String) × List IGCall :=
  if target ≠ "" ∧ ¬ env.accounts.contains target then
    (.error ("Unknown account " ++ target), [])
  else if record.post_type == "carousel" then
    if record.blob_urls.isEmpty then
      (.error "Carousel content requires blob_urls list", [])
    else
      match createChildren env record.blob_urls with
      | (.error e, calls) => (.error e, calls)
      | (.ok children, calls) =>
        match env.createCarouselContainer children caption_text with
        | .error e => (.error e, calls ++ [.createCarousel children caption_text])
        | .ok container_id =>
          match env.publishContainer container_id with
          | .error e =>
              (.error e,
               calls ++ [.createCarousel children caption_text, .publishCall container_id])
          | .ok media_id =>
              (.ok (container_id, media_id),
               calls ++ [.createCarousel children caption_text, .publishCall container_id])
  else if record.post_type == "reel" || record.media_type == "video" then
    match env.createVideoContainer media_url caption_text with
    | .error e => (.error e, [.createVideo media_url caption_text])
    | .ok container_id =>
      let poll := videoPoll env.checkContainerStatus container_id 10 0
      let pollCalls := List.replicate poll.2 (IGCall.checkStatus container_id)
      match poll.1 with
      | .error e => (.error e, .createVideo media_url caption_text :: pollCalls)
      | .ok (.errored code) =>
          (.error ("Video processing failed: " ++ code),
           .createVideo media_url caption_text :: pollCalls)
      | .ok .timeout =>
          (.error "Video processing timed out after 5 minutes",
           .createVideo media_url caption_text :: pollCalls)
      | .ok .finished =>
        match env.publishContainer container_id with
        | .error e =>
            (.error e,
             .createVideo media_url caption_text :: pollCalls ++ [.publishCall container_id])
        | .ok media_id =>
            (.ok (container_id, media_id),
             .createVideo media_url caption_text :: pollCalls ++ [.publishCall container_id])
  else
    match env.createImageContainer media_url caption_text with
    | .error e => (.error e, [.createImage media_url caption_text])
    | .ok container_id =>
      match env.publishContainer container_id with
      | .error e => (.error e, [.createImage media_url caption_text, .publishCall container_id])
      | .ok media_id =>
          (.ok (container_id, media_id),
           [.createImage media_url caption_text, .publishCall container_id])

/-- `_publish_record` (publisher/tools.py lines 136-223): result dict, the
stored record afterwards, and the trace of external publish-API calls. -/
def publish_record (record : ContentRecord) (account_name : String) (env : IGEnv) :
    PubResult × ContentRecord × List IGCall :=
  let content_id := record.id
  if record.approval_status ≠ "approved" then
    ({ status := "error",
       error := "Content " ++ content_id ++ " is not approved (status=" ++
         record.approval_status ++ ")",
       content_id := content_id }, record, [])
  else if record.publish_status == "published" then
    ({ status := "ok", content_id := content_id, message := "Content already published",
       instagram_media_id := record.instagram_media_id }, record, [])
  else
    let media_url := record.blob_url
    let caption_text := build_caption record
    if media_url == "" then
      ({ status := "error", error := "Content " ++ content_id ++ " has no blob_url",
         content_id := content_id }, record, [])
    else
      let target := if account_name ≠ "" then account_name else record.target_account_name
      match publishDispatch record caption_text media_url target env with
      | (.error e, calls) =>
          ({ status := "error", error := e, content_id := content_id }, record, calls)
      | (.ok (container_id, media_id), calls) =>
        match env.markPublished with
        | .error e =>
            ({ status := "error", error := e, content_id := content_id }, record, calls)
        | .ok foundInQueue =>
          let record' :=
            if foundInQueue then mark_content_published record media_id ""
            else mark_content_published record media_id container_id
          ({ status := "published", content_id := content_id,
             container_id := container_id, instagram_media_id := media_id }, record', calls)

/-- `publish_content_by_id` (lines 226-230): reload the record from the
store, then `_publish_record`. -/
def publish_content_by_id (store : Option ContentRecord) (content_id account_name : String)
    (env : IGEnv) : PubResult × Option ContentRecord × List IGCall :=
  match store with
  | none =>
      ({ status := "error", error := "Content " ++ content_id ++ " not found",
         content_id := content_id }, none, [])
  | some record =>
    let r := publish_record record account_name env
    (r.1, some r.2.1, r.2.2)

/-- `PublisherQueueWorker._process` (publisher_trigger_service.py lines
71-111): reload the record and re-verify human approval, media review and
idempotency before publishing.  Returns the store afterwards and the
external publish-API calls made. -/
def publisher_worker_process (content_id : String) (store : Option ContentRecord)
    (env : IGEnv) : Option ContentRecord × List IGCall :=
  match store with
  | none => (none, [])
  | some record =>
    if record.approval_status ≠ "approved" then (store, [])
    else if record.media_review_status ≠ some "approved" then (store, [])
    else if record.publish_status == "published" then (store, [])
    else
      let r := publish_content_by_id store content_id "" env
      (r.2.1, r.2.2)

/-! ## Human approval gate (src/agents/approver/tools.py) -/

/-- Oracles for an approver write: whether the Cosmos update succeeds
(`update_content` returns a document) and the Service Bus forward outcome. -/
structure ApproveEnv where
  updateOk : Bool
  enqueueApproved : Except String Unit

/-- Observable outcome of `approve_item` / `reject_item` / `request_edits`:
the error dict (if any), the success-status field, the store afterwards,
and whether a publish notification was enqueued. -/
structure ApproverOutcome where
  errorMsg : Option String := none
  status : String := ""
  store : Option ContentRecord := none
  enqueueAttempted : Bool := false
  enqueueSucceeded : Bool := false
deriving Repr, DecidableEq

/-- `approve_item` (approver/tools.py lines 135-181). -/
def approve_item (store : Option ContentRecord) (item_id notes : String)
    (env : ApproveEnv) : ApproverOutcome :=
  match store with
  | none =>
      { errorMsg := some ("Item " ++ item_id ++ " not found in database."), store := none }
  | some item =>
    if item.approval_status ≠ "pending" then
      { errorMsg := some ("Item " ++ item_id ++ " is not pending — current status: " ++
          item.approval_status),
        store := store }
    else if !env.updateOk then
      { errorMsg := some ("Failed to update item " ++ item_id ++ "."), store := store }
    else
      let updated := set_approval_status item "approved" notes
      match env.enqueueApproved with
      | .ok _ =>
          { status := "approved", store := some updated,
            enqueueAttempted := true, enqueueSucceeded := true }
      | .error _ =>
          { status := "approved", store := some updated,
            enqueueAttempted := true, enqueueSucceeded := false }

/-- `reject_item` (lines 184-204): no queue side effect. -/
def reject_item (store : Option ContentRecord) (item_id notes : String)
    (env : ApproveEnv) : ApproverOutcome :=
  match store with
  | none =>
      { errorMsg := some ("Item " ++ item_id ++ " not found in database."), store := none }
  | some item =>
    if item.approval_status ≠ "pending" then
      { errorMsg := some ("Item " ++ item_id ++ " is not pending — current status: " ++
          item.approval_status),
        store := store }
    else if !env.updateOk then
      { errorMsg := some ("Failed to update item " ++ item_id ++ "."), store := store }
    else
      { status := "rejected", store := some (set_approval_status item "rejected" notes) }

/-- `request_edits` (lines 207-227): no queue side effect. -/
def request_edits (store : Option ContentRecord) (item_id notes : String)
    (env : ApproveEnv) : ApproverOutcome :=
  match store with
  | none =>
      { errorMsg := some ("Item " ++ item_id ++ " not found in database."), store := none }
  | some item =>
    if item.approval_status ≠ "pending" then
      { errorMsg := some ("Item " ++ item_id ++ " is not pending — current status: " ++
          item.approval_status),
        store := store }
    else if !env.updateOk then
      { errorMsg := some ("Failed to update item " ++ item_id ++ "."), store := store }
    else
      { status := "edit_requested",
        store := some (set_approval_status item "edit_requested" notes) }

/-! ## Generation-queue submission (src/services/generation_queue_service.py) -/

/-- Arguments of `submit_generation` / `create_content_record`. -/
structure GenArgs where
  media_type : String := "image"
  prompt : String := ""
  post_type : String := "post"
  target_account_name : String := ""
  topic : String := ""
  caption : String := ""
  hashtags : List String := []
  output_format : String := "png"
  account : String := ""
deriving Repr, DecidableEq

/-- The document `submit_generation` saves (lines 174-200):
`generation_status='queued'`, `approval_status='pending'`,
`publish_status='pending'`.  `newId` stands for the generated UUID. -/
def submit_generation_doc (newId : String) (a : GenArgs) : ContentRecord :=
  { id := newId, media_type := a.media_type, post_type := a.post_type,
    prompt := a.prompt, caption := a.caption, description := a.topic,
    hashtags := .asList a.hashtags, target_account_name := a.target_account_name,
    account := a.account, output_format := a.output_format,
    generation_status := "queued", approval_status := "pending",
    publish_status := "pending" }

/-- `GenerationQueueService.create_content_record` (lines 44-104): the plan
record is saved with `generation_status='pending_review'` and
`approval_status='pending_review'` — it is queued only later by
`submit_to_queue`, after the reviewer approves. -/
def create_content_record (newId : String) (a : GenArgs) : ContentRecord :=
  { id := newId, media_type := a.media_type, post_type := a.post_type,
    prompt := a.prompt, caption := a.caption, description := a.topic,
    hashtags := .asList a.hashtags, target_account_name := a.target_account_name,
    account := a.account, output_format := a.output_format,
    generation_status := "pending_review", approval_status := "pending_review",
    publish_status := "pending" }

/-- Oracles for `submit_generation`: the Service Bus send and whether the
compensating `delete_media_metadata` succeeds. -/
structure GenQueueEnv where
  sendToQueue : Except String Unit
  deleteOk : Bool

/-- Observable outcome of `submit_generation`: the returned document or the
re-raised exception, the list of records created, and the ids deleted. -/
structure SubmitGenOutcome where
  outcome : Except String ContentRecord
  created : List ContentRecord := []
  deleted : List String := []
deriving Repr

/-- `GenerationQueueService.submit_generation` (lines 148-236): create the
record in `queued` state, enqueue the generation request; on enqueue
failure delete the just-created record (best-effort) and re-raise. -/
def submit_generation (newId : String) (a : GenArgs) (env : GenQueueEnv) :
    SubmitGenOutcome :=
  let doc := submit_generation_doc newId a
  match env.sendToQueue with
  | .ok _ => { outcome := .ok doc, created := [doc] }
  | .error e =>
      { outcome := .error e, created := [doc],
        deleted := if env.deleteOk then [doc.id] else [] }

/-! ## Media generation worker (src/services/queue_triggers/media_generation_worker.py) -/

/-- Python `str.lower()` (ASCII suffices for provider/mode strings). -/
def pyLower (s : String) : String := String.mk (s.data.map Char.toLower)

/-- Side effects of one worker step. -/
structure GenEffects where
  providerSubmits : Nat := 0
  blobUploads : Nat := 0
  storeUpdates : Nat := 0
  reviewPendingSends : Nat := 0
  reviewGateCalled : Bool := false
deriving Repr, DecidableEq

/-- Sum of effect counters (sequential composition of two steps). -/
def GenEffects.add (a b : GenEffects) : GenEffects :=
  { providerSubmits := a.providerSubmits + b.providerSubmits,
    blobUploads := a.blobUploads + b.blobUploads,
    storeUpdates := a.storeUpdates + b.storeUpdates,
    reviewPendingSends := a.reviewPendingSends + b.reviewPendingSends,
    reviewGateCalled := a.reviewGateCalled || b.reviewGateCalled }

/-- One entry of `result["images"]` (width/height metadata is not read by
any lifecycle decision and is omitted). -/
structure ImageInfo where
  url : String := ""
deriving Repr, DecidableEq

/-- The fal.ai result dict: `Option` distinguishes an absent key (whose
subscription raises `KeyError`) from a present one. -/
structure GenResult where
  video_url : Option String := none
  images : Option (List ImageInfo) := none
  description : String := ""
deriving Repr, DecidableEq

/-- Result of `upload_blob` (`file_size_bytes` is not read downstream). -/
structure BlobInfo where
  blob_url : String := ""
  blob_name : String := ""
deriving Repr, DecidableEq

/-- Oracles for `_handle_completed`: fal `result()`, the CDN download, the
blob upload, the review gate's own oracles, and the review-pending send. -/
structure GenWorkerEnv where
  falResult : Except String GenResult
  download : Except String Unit
  upload : Except String BlobInfo
  review : ReviewEnv
  reviewPendingSend : Except String Unit

/-- Apply the `set_media_review_status` write (if any) that the review gate
performed to the stored record. -/
def applyReviewWrite (r : ContentRecord) (o : ReviewOutcome) : ContentRecord :=
  match o.written with
  | some (st, notes) => set_media_review_status r st notes
  | none => r

/-- `MediaGenerationWorker._handle_completed` (lines 248-349): download the
asset, upload it to blob storage, update the record to `completed`, invoke
the review gate synchronously, and enqueue for human approval unless the
gate blocked.  `.error` in the first component is an uncaught exception. -/
def handle_completed (content_id : String) (record : ContentRecord)
    (precomputed : Option GenResult) (env : GenWorkerEnv) :
    Except String Unit × ContentRecord × GenEffects :=
  let resultE : Except String GenResult :=
    match precomputed with
    | some r => .ok r
    | none => env.falResult
  match resultE with
  | .error e => (.error e, record, {})
  | .ok result =>
    let media_type := record.media_type
    let assetE : Except String String :=
      if media_type == "video" then
        match result.video_url with
        | some u => .ok u
        | none => .error "KeyError: video"
      else
        match result.images with
        | none => .error "KeyError: images"
        | some [] => .error "IndexError: images"
        | some (img :: _) => .ok img.url
    match assetE with
    | .error e => (.error e, record, {})
    | .ok _asset_url =>
      match env.download with
      | .error e => (.error e, record, {})
      | .ok _ =>
        match env.upload with
        | .error e => (.error e, record, {})
        | .ok blob =>
          let record1 : ContentRecord :=
            { record with
              generation_status := "completed",
              blob_url := blob.blob_url, blob_name := blob.blob_name,
              media_review_status := some "pending",
              approval_status := "pending",
              description :=
                if media_type == "image" ∧ result.images.isSome then result.description
                else record.description }
          let eff1 : GenEffects := { blobUploads := 1, storeUpdates := 1 }
          let rv := review_generated_media content_id (some record1) env.review
          let record2 := applyReviewWrite record1 rv
          let eff2 : GenEffects :=
            { eff1 with
              reviewGateCalled := true,
              storeUpdates := eff1.storeUpdates + (if rv.written.isSome then 1 else 0) }
          let verdict := pyStrip (pyUpper (rv.verdict.getD ""))
          let safe_from_content_safety :=
            match rv.text_content_safety with
            | some s => s.safe
            | none => false
          let should_block :=
            if verdict ≠ "" then verdict ≠ "APPROVED" else !safe_from_content_safety
          if should_block then (.ok (), record2, eff2)
          else
            match env.reviewPendingSend with
            | .error _ => (.ok (), record2, eff2)
            | .ok _ =>
              let record3 := { record2 with approval_status := "pending" }
              (.ok (), record3,
               { eff2 with reviewPendingSends := 1, storeUpdates := eff2.storeUpdates + 1 })

/-- The generator-service submission dict (`mode`, `provider`, `model_id`,
`request_id`, and `image_url` in synchronous image mode). -/
structure GenSubmission where
  mode : String := "async"
  provider : String := "fal"
  model_id : String := ""
  request_id : String := ""
  image_url : String := ""
deriving Repr, DecidableEq

/-- Oracles for `_submit_generation`: the image/video generator call (which
performs the provider submission) plus the `_handle_completed` oracles. -/
structure SubmitEnv where
  generate : Except String GenSubmission
  handleEnv : GenWorkerEnv

/-- `MediaGenerationWorker._submit_generation` (lines 108-172): load the
record, verify it is still `queued`, submit to the provider, and persist
the job handle (async) or materialize immediately (sync image). -/
def worker_submit_generation (content_id : String) (store : Option ContentRecord)
    (env : SubmitEnv) : Except String Unit × Option ContentRecord × GenEffects :=
  match store with
  | none => (.ok (), none, {})
  | some record =>
    if record.generation_status ≠ "queued" then (.ok (), store, {})
    else
      match env.generate with
      | .error e => (.error e, store, {})
      | .ok sub =>
        let mode := pyLower sub.mode
        let provider := pyLower sub.provider
        let model_id := sub.model_id
        let eff0 : GenEffects := { providerSubmits := 1 }
        if mode == "sync" ∧ record.media_type == "image" then
          if sub.image_url == "" then
            (.error "Sync image generation returned no image_url", store, eff0)
          else
            let record1 :=
              { record with
                generation_status := "completed",
                generation_provider := some provider, generation_mode := some mode,
                fal_model_id := model_id }
            let eff1 := { eff0 with storeUpdates := 1 }
            let hc := handle_completed content_id record1
              (some { images := some [{ url := sub.image_url }] }) env.handleEnv
            (hc.1, some hc.2.1, eff1.add hc.2.2)
        else
          if sub.request_id == "" ∨ model_id == "" then
            (.error ("Async generation missing request_id/model_id for content " ++ content_id),
             store, eff0)
          else
            let record1 :=
              { record with
                generation_status := "submitted",
                fal_request_id := sub.request_id, fal_model_id := model_id,
                generation_provider := some provider, generation_mode := some mode }
            (.ok (), some record1, { eff0 with storeUpdates := 1 })

/-- fal.ai job status values (`fal_client` reports failures by raising, not
by a status value — there is no failure constructor to report). -/
inductive FalStatus where
  | queuedStatus
  | inProgress
  | completed
deriving Repr, DecidableEq

/-- Oracles for one item of the progress poller. -/
structure PollEnv where
  statusCheck : Except String FalStatus
  handleEnv : GenWorkerEnv

/-- The per-item body of `MediaGenerationWorker._check_submitted_items`
(lines 209-246): a raised status check is caught (log and `continue`); a
`Completed` status triggers `_handle_completed`, whose exceptions propagate
out of the loop uncaught. -/
def poll_check_item (item : ContentRecord) (env : PollEnv) :
    Except String Unit × ContentRecord × GenEffects :=
  let provider := pyLower (item.generation_provider.getD "fal")
  let mode := pyLower (item.generation_mode.getD "async")
  if provider ≠ "fal" ∨ mode ≠ "async" then (.ok (), item, {})
  else if item.fal_request_id == "" ∨ item.fal_model_id == "" then (.ok (), item, {})
  else
    match env.statusCheck with
    | .error _ => (.ok (), item, {})
    | .ok .completed => handle_completed item.id item none env.handleEnv
    | .ok _ => (.ok (), item, {})

/-! ## Concrete instances used by witnesses and counterexamples -/

/-- A publish environment in which every external call succeeds and the
approved-queue lookup of `mark_published` misses (fallback store write). -/
def c3Env : IGEnv :=
  { createImageContainer := fun _ _ => .ok "ct1",
    createVideoContainer := fun _ _ => .ok "ct1",
    createCarouselContainer := fun _ _ => .ok "ct1",
    checkContainerStatus := fun _ _ => .ok "FINISHED",
    publishContainer := fun _ => .ok "m1",
    accounts := [], markPublished := .ok false }

/-- A completed video record under review. -/
def c1Doc : ContentRecord :=
  { id := "c1", media_type := "video", prompt := "sunset over the sea",
    blob_url := "https://blob/v.mp4" }

/-- A review environment whose safety service raises on every call and
whose LLM reviewer approves. -/
def c1Env : ReviewEnv :=
  { textSvc := fun _ => .error "network down", imageSvc := fun _ => .error "network down",
    llmText := .parsed (some "APPROVED") "ok", llmImage := .parsed (some "APPROVED") "ok" }

/-- A completed image record under review. -/
def c5Doc : ContentRecord :=
  { id := "c5", media_type := "image", blob_url := "https://blob/i.png" }

/-- A review environment whose image analysis reports a severity-5
Violence category. -/
def c5Env : ReviewEnv :=
  { textSvc := fun _ => .ok [], imageSvc := fun _ => .ok [("Violence", 5)],
    llmText := .callError "unused", llmImage := .callError "unused" }

/-- A record awaiting its fal.ai async generation result. -/
def c8Item : ContentRecord :=
  { id := "c8", media_type := "video", generation_status := "submitted",
    generation_provider := some "fal", generation_mode := some "async",
    fal_request_id := "r1", fal_model_id := "m1" }

/-- A poll environment whose provider status check raises (the provider
reports failure by raising — `fal_client` has no failure status value). -/
def c8Env : PollEnv :=
  { statusCheck := .error "fal job failed: infra error",
    handleEnv :=
      { falResult := .error "unused", download := .ok (), upload := .error "unused",
        review :=
          { textSvc := fun _ => .ok [], imageSvc := fun _ => .ok [],
            llmText := .callError "unused", llmImage := .callError "unused" },
        reviewPendingSend := .ok () } }

/-- Exactly 10 000 whitespace characters. -/
def wsText : String := String.mk (List.replicate 10000 ' ')

/-- The same 10 000 whitespace characters followed by content beyond the
10 000-character analysis window. -/
def wsTextX : String := String.mk (List.replicate 10000 ' ' ++ ['x'])

/-- A safety service that flags severity-6 Hate on every analysed text. -/
def hateSvc : SafetyCall := fun _ => .ok [("Hate", 6)]

/-! ## Theorems -/

/-- C4: for every content record whose `generation_status` is not `queued`
(e.g. already `submitted` or `completed`), processing a re-delivered
generation-queue message performs no provider submission, no blob upload,
and no content-store update — the submit step returns after the status
check. -/
theorem submit_generation_idempotent_skip (content_id : String) (record : ContentRecord)
    (env : SubmitEnv) (h : record.generation_status ≠ "queued") :
    worker_submit_generation content_id (some record) env = (.ok (), some record, {}) ∧
    (worker_submit_generation content_id (some record) env).2.2.providerSubmits = 0 ∧
    (worker_submit_generation content_id (some record) env).2.2.blobUploads = 0 ∧
    (worker_submit_generation content_id (some record) env).2.2.storeUpdates = 0 := by
  unfold worker_submit_generation
  simp [h]

/-- C4 witness: a record already `submitted` is skipped untouched. -/
theorem submit_generation_idempotent_skip_witness :
    worker_submit_generation "c4"
      (some { id := "c4", generation_status := "submitted" })
      { generate := .ok {},
        handleEnv :=
          { falResult := .error "unused", download := .ok (), upload := .error "unused",
            review :=
              { textSvc := fun _ => .error "unused", imageSvc := fun _ => .error "unused",
                llmText := .callError "unused", llmImage := .callError "unused" },
            reviewPendingSend := .ok () } } =
      (.ok (), some { id := "c4", generation_status := "submitted" }, {}) :=
  (submit_generation_idempotent_skip "c4" { id := "c4", generation_status := "submitted" }
    _ (by decide)).1

/-- C6: calling approve (likewise reject or request_edits) on a record whose
`approval_status` is not `pending` returns an error naming the actual
current status, leaves the store unchanged, and enqueues nothing. -/
theorem approve_non_pending_conflict (item : ContentRecord) (item_id notes : String)
    (env : ApproveEnv) (h : item.approval_status ≠ "pending") :
    approve_item (some item) item_id notes env =
      { errorMsg := some ("Item " ++ item_id ++ " is not pending — current status: " ++
          item.approval_status),
        store := some item } ∧
    reject_item (some item) item_id notes env =
      { errorMsg := some ("Item " ++ item_id ++ " is not pending — current status: " ++
          item.approval_status),
        store := some item } ∧
    request_edits (some item) item_id notes env =
      { errorMsg := some ("Item " ++ item_id ++ " is not pending — current status: " ++
          item.approval_status),
        store := some item } := by
  unfold approve_item reject_item request_edits
  simp [h]

/-- C6 witness: approving an already-approved item is refused. -/
theorem approve_non_pending_conflict_witness :
    approve_item (some { id := "c6", approval_status := "approved" }) "c6" ""
      { updateOk := true, enqueueApproved := .ok () } =
      { errorMsg := some "Item c6 is not pending — current status: approved",
        store := some { id := "c6", approval_status := "approved" } } :=
  (approve_non_pending_conflict { id := "c6", approval_status := "approved" } "c6" ""
    { updateOk := true, enqueueApproved := .ok () } (by decide)).1

/-- C7: if the approved-publish enqueue fails after the store write
succeeded, the record stays `approved` (no rollback) and `approve_item`
still returns the success result rather than propagating the error. -/
theorem approve_enqueue_failure_keeps_approval (item : ContentRecord)
    (item_id notes e : String) (env : ApproveEnv) (hp : item.approval_status = "pending")
    (hup : env.updateOk = true) (henq : env.enqueueApproved = .error e) :
    approve_item (some item) item_id notes env =
      { status := "approved", store := some (set_approval_status item "approved" notes),
        enqueueAttempted := true, enqueueSucceeded := false } ∧
    (set_approval_status item "approved" notes).approval_status = "approved" := by
  unfold approve_item
  simp [hp, hup, henq, set_approval_status]

/-- C7 witness: concrete pending item, failing Service Bus forward. -/
theorem approve_enqueue_failure_keeps_approval_witness :
    approve_item (some { id := "c7", approval_status := "pending" }) "c7" "ok"
      { updateOk := true, enqueueApproved := .error "bus down" } =
      { status := "approved",
        store := some (set_approval_status { id := "c7", approval_status := "pending" }
          "approved" "ok"),
        enqueueAttempted := true, enqueueSucceeded := false } :=
  (approve_enqueue_failure_keeps_approval { id := "c7", approval_status := "pending" }
    "c7" "ok" "bus down" { updateOk := true, enqueueApproved := .error "bus down" }
    rfl rfl rfl).1

/-- C9 counterexample: `GenerationQueueService.create_content_record` creates
a content record whose `generation_status` is `pending_review`, not
`queued` — refuting "every content record is created ... with
`generation_status='queued'`". -/
theorem create_content_record_pending_review_cex :
    (create_content_record "c9" {}).generation_status = "pending_review" ∧
    (create_content_record "c9" {}).generation_status ≠ "queued" := by
  exact ⟨rfl, by decide⟩

/-- C9 (amended): records created by `submit_generation` are created exactly
once, in `generation_status='queued'`, and deleted only as rollback
compensation when the enqueue fails after creation; records created by
`create_content_record`, however, start in `generation_status='pending_review'`
and are queued only later by `submit_to_queue`. -/
theorem submission_record_lifecycle (newId : String) (a : GenArgs) (env : GenQueueEnv) :
    (submit_generation newId a env).created = [submit_generation_doc newId a] ∧
    (submit_generation_doc newId a).generation_status = "queued" ∧
    (env.sendToQueue = .ok () →
      (submit_generation newId a env).deleted = [] ∧
      (submit_generation newId a env).outcome = .ok (submit_generation_doc newId a)) ∧
    (∀ e, env.sendToQueue = .error e → env.deleteOk = true →
      (submit_generation newId a env).deleted = [newId] ∧
      (submit_generation newId a env).outcome = .error e) ∧
    (create_content_record newId a).generation_status = "pending_review" := by
  unfold submit_generation submit_generation_doc create_content_record
  refine ⟨?_, rfl, ?_, ?_, rfl⟩
  · cases env.sendToQueue <;> rfl
  · intro hs
    rw [hs]
    exact ⟨rfl, rfl⟩
  · intro e hs hd
    rw [hs]
    simp [hd]

/-- C9 witness: a successful submission creates one queued record and
deletes nothing; the same submission with a failing enqueue deletes the
just-created record and re-raises. -/
theorem submission_record_lifecycle_witness :
    (submit_generation "c9b" {} { sendToQueue := .ok (), deleteOk := true }).deleted = [] ∧
    (submit_generation "c9b" {} { sendToQueue := .error "bus down", deleteOk := true }).deleted
      = ["c9b"] :=
  ⟨((submission_record_lifecycle "c9b" {}
      { sendToQueue := .ok (), deleteOk := true }).2.2.1 rfl).1,
   ((submission_record_lifecycle "c9b" {}
      { sendToQueue := .error "bus down", deleteOk := true }).2.2.2.1 "bus down" rfl rfl).1⟩

/-- C2: the publisher worker marks a record `published` only if, at the
moment of publishing, the freshly reloaded record has
`approval_status='approved'`, `media_review_status='approved'` and a
`publish_status` that is not already `published`; if any of these checks
fails the worker makes no external publish call and leaves the store
unchanged. -/
theorem publisher_worker_publish_guard (content_id : String) (record : ContentRecord)
    (env : IGEnv) :
    (record.approval_status ≠ "approved" ∨ record.media_review_status ≠ some "approved" ∨
        record.publish_status = "published" →
      publisher_worker_process content_id (some record) env = (some record, [])) ∧
    (∀ r', (publisher_worker_process content_id (some record) env).1 = some r' →
      r'.publish_status = "published" → record.publish_status ≠ "published" →
      record.approval_status = "approved" ∧ record.media_review_status = some "approved") := by
  constructor
  · intro h
    unfold publisher_worker_process
    rcases h with h | h | h
    · simp [h]
    · by_cases ha : record.approval_status = "approved"
      · simp [ha, h]
      · simp [ha]
    · by_cases ha : record.approval_status = "approved"
      · by_cases hm : record.media_review_status = some "approved"
        · simp [ha, hm, h]
        · simp [ha, hm]
      · simp [ha]
  · intro r' h1 h2 h3
    by_cases ha : record.approval_status = "approved"
    · by_cases hm : record.media_review_status = some "approved"
      · exact ⟨ha, hm⟩
      · unfold publisher_worker_process at h1
        simp [ha, hm] at h1
        rw [← h1] at h2
        exact absurd h2 h3
    · unfold publisher_worker_process at h1
      simp [ha] at h1
      rw [← h1] at h2
      exact absurd h2 h3

/-- C2 witness: a record whose media review is still pending is skipped
untouched, with zero external calls. -/
theorem publisher_worker_publish_guard_witness :
    publisher_worker_process "c2"
      (some { id := "c2", approval_status := "approved",
              media_review_status := some "pending" })
      { createImageContainer := fun _ _ => .ok "ct", createVideoContainer := fun _ _ => .ok "ct",
        createCarouselContainer := fun _ _ => .ok "ct", checkContainerStatus := fun _ _ => .ok "FINISHED",
        publishContainer := fun _ => .ok "m1", accounts := [], markPublished := .ok false } =
      (some { id := "c2", approval_status := "approved",
              media_review_status := some "pending" }, []) :=
  (publisher_worker_publish_guard "c2"
    { id := "c2", approval_status := "approved", media_review_status := some "pending" }
    _).1 (Or.inr (Or.inl (by decide)))

/-- A `_publish_record` call that reports `status='published'` implies the
record passed the approval and idempotency guards, and the stored record
afterwards is marked published with approval status and id unchanged. -/
lemma publish_record_published_inv (record : ContentRecord) (a : String) (env : IGEnv)
    (res : PubResult) (r' : ContentRecord) (calls : List IGCall)
    (heq : publish_record record a env = (res, r', calls))
    (h : res.status = "published") :
    record.approval_status = "approved" ∧ record.publish_status ≠ "published" ∧
    r'.publish_status = "published" ∧ r'.approval_status = record.approval_status ∧
    r'.id = record.id := by
  simp only [publish_record] at heq
  split at heq
  · injection heq with h1 h23
    subst h1
    simp at h
  · split at heq
    · injection heq with h1 h23
      subst h1
      simp at h
    · split at heq
      · injection heq with h1 h23
        subst h1
        simp at h
      · split at heq
        · injection heq with h1 h23
          subst h1
          simp at h
        · split at heq
          · injection heq with h1 h23
            subst h1
            simp at h
          · injection heq with h1 h23
            injection h23 with h2 h3
            subst h1 h2
            refine ⟨by simp_all, by simp_all, ?_, ?_, ?_⟩ <;>
              split <;> simp [mark_content_published]

/-- C3: if a publish call on a record succeeds (`status='published'`), a
second publish request for the same content returns the "already
published" result and performs zero calls to the external publish API. -/
theorem publish_twice_no_external_calls (record : ContentRecord) (a1 a2 : String)
    (env1 env2 : IGEnv) (h : (publish_record record a1 env1).1.status = "published") :
    publish_record (publish_record record a1 env1).2.1 a2 env2 =
      ({ status := "ok", content_id := (publish_record record a1 env1).2.1.id,
         message := "Content already published",
         instagram_media_id := (publish_record record a1 env1).2.1.instagram_media_id },
       (publish_record record a1 env1).2.1, []) := by
  rcases hpr : publish_record record a1 env1 with ⟨res, r', calls⟩
  rw [hpr] at h
  simp only at h
  obtain ⟨ha, _, h1, h2, _⟩ :=
    publish_record_published_inv record a1 env1 res r' calls hpr h
  dsimp only
  unfold publish_record
  simp [h1, h2, ha]

/-- C3 witness: a concrete image publish succeeds; replaying it returns
"already published" with no external calls. -/
theorem publish_twice_no_external_calls_witness :
    (publish_record
        { id := "c3", approval_status := "approved", publish_status := "pending",
          blob_url := "https://blob/i.png" } "" c3Env).1.status = "published" ∧
    publish_record
        (publish_record
          { id := "c3", approval_status := "approved", publish_status := "pending",
            blob_url := "https://blob/i.png" } "" c3Env).2.1 "" c3Env =
      ({ status := "ok",
         content_id := (publish_record
           { id := "c3", approval_status := "approved", publish_status := "pending",
             blob_url := "https://blob/i.png" } "" c3Env).2.1.id,
         message := "Content already published",
         instagram_media_id := (publish_record
           { id := "c3", approval_status := "approved", publish_status := "pending",
             blob_url := "https://blob/i.png" } "" c3Env).2.1.instagram_media_id },
       (publish_record
         { id := "c3", approval_status := "approved", publish_status := "pending",
           blob_url := "https://blob/i.png" } "" c3Env).2.1, []) :=
  ⟨rfl,
   publish_twice_no_external_calls
     { id := "c3", approval_status := "approved", publish_status := "pending",
       blob_url := "https://blob/i.png" } "" "" c3Env c3Env rfl⟩

/-- The `blocked` list built by the response loop is exactly the blocked
categories of the response items. -/
lemma collect_blocked_spec (items : List (String × Nat))
    (acc : List (String × Nat) × List String) :
    (items.foldl
      (fun acc it =>
        (dictInsert acc.1 it.1 it.2,
         if SEVERITY_THRESHOLD ≤ it.2 then acc.2 ++ [it.1] else acc.2))
      acc).2 = acc.2 ++ blockedOf items := by
  induction items generalizing acc with
  | nil => simp [blockedOf]
  | cons it rest ih =>
    simp only [List.foldl_cons, blockedOf, List.filter_cons]
    by_cases hsev : SEVERITY_THRESHOLD ≤ it.2
    · rw [ih]
      simp [blockedOf, hsev]
    · rw [ih]
      simp [blockedOf, hsev]

/-- `collectCategories` computes `blockedOf`. -/
lemma collectCategories_blocked (items : List (String × Nat)) :
    (collectCategories items).2 = blockedOf items := by
  simpa using collect_blocked_spec items ([], [])

/-- A category at or above the threshold appears in the blocked list. -/
lemma blockedOf_mem {items : List (String × Nat)} {p : String × Nat}
    (hp : p ∈ items) (hsev : SEVERITY_THRESHOLD ≤ p.2) : p.1 ∈ blockedOf items := by
  simp only [blockedOf, List.mem_map, List.mem_filter]
  exact ⟨p, ⟨hp, by simpa using hsev⟩, rfl⟩

/-- Some category at or above the threshold makes the blocked list nonempty. -/
lemma blockedOf_ne_nil {items : List (String × Nat)}
    (hex : ∃ p ∈ items, SEVERITY_THRESHOLD ≤ p.2) : blockedOf items ≠ [] := by
  obtain ⟨p, hp, hsev⟩ := hex
  intro h
  have := blockedOf_mem hp hsev
  rw [h] at this
  simp at this

lemma isEmpty_false_of_ne_nil {α : Type} {l : List α} (h : l ≠ []) : l.isEmpty = false := by
  cases l with
  | nil => exact absurd rfl h
  | cons a t => rfl

/-- A text that is not whitespace-only does not hit the blank-text guard. -/
lemma isBlankText_false_of_not_ws {t : String} (h : isAllWhitespace t = false) :
    isBlankText t = false := by
  unfold isBlankText
  unfold isAllWhitespace at h
  cases hd : t.data with
  | nil => rw [hd] at h; simp at h
  | cons c cs => rw [hd] at h; simp [h]

/-- A successful safety-service response analyses to the blocked-list
result. -/
lemma analyze_text_ok (svc : SafetyCall) (t : String) (items : List (String × Nat))
    (hbl : isBlankText t = false) (hsvc : svc (pyTake t 10000) = .ok items) :
    analyze_text svc t =
      { safe := (blockedOf items).isEmpty, categories := (collectCategories items).1,
        blocked_categories := blockedOf items, error := none } := by
  unfold analyze_text
  rw [if_neg (by simp [hbl]), hsvc]
  simp [collectCategories_blocked]

/-- A successful image-analysis response analyses to the blocked-list
result. -/
lemma analyze_image_ok (svc : SafetyCall) (url : String) (items : List (String × Nat))
    (hb : url ≠ "") (hsvc : svc url = .ok items) :
    analyze_image_from_url svc url =
      { safe := (blockedOf items).isEmpty, categories := (collectCategories items).1,
        blocked_categories := blockedOf items, error := none } := by
  unfold analyze_image_from_url
  rw [if_neg (by simp [hb]), hsvc]
  simp [collectCategories_blocked]

/-- C5: a safety-analysis category at or above `SEVERITY_THRESHOLD` makes
the gate persist `media_review_status='rejected'` with the blocking
categories named in the notes and skip the layer-2 LLM review entirely
(both for the image layer and for the text layer); every at-or-above
category is named in the blocked list; and categories strictly below the
threshold alone never make layer 1 block. -/
theorem safety_threshold_veto (content_id : String) (doc : ContentRecord)
    (env : ReviewEnv) (items : List (String × Nat)) :
    ((doc.media_type = "image" ∧ doc.blob_url ≠ "" ∧
        env.imageSvc doc.blob_url = .ok items ∧
        (∃ p ∈ items, SEVERITY_THRESHOLD ≤ p.2)) →
      (review_generated_media content_id (some doc) env).written =
        some ("rejected", "Image blocked by Azure Content Safety. Categories: " ++
          String.intercalate ", " (blockedOf items)) ∧
      (review_generated_media content_id (some doc) env).llmImageCalled = false ∧
      (review_generated_media content_id (some doc) env).llmTextCalled = false) ∧
    ((doc.blob_url ≠ "" ∧
        (doc.media_type = "image" →
          (analyze_image_from_url env.imageSvc doc.blob_url).safe = true) ∧
        isAllWhitespace (doc_to_reviewable_text doc) = false ∧
        env.textSvc (pyTake (doc_to_reviewable_text doc) 10000) = .ok items ∧
        (∃ p ∈ items, SEVERITY_THRESHOLD ≤ p.2)) →
      (review_generated_media content_id (some doc) env).written =
        some ("rejected", "Text metadata blocked by Content Safety. Categories: " ++
          String.intercalate ", " (blockedOf items)) ∧
      (review_generated_media content_id (some doc) env).llmImageCalled = false ∧
      (review_generated_media content_id (some doc) env).llmTextCalled = false) ∧
    (∀ p ∈ items, SEVERITY_THRESHOLD ≤ p.2 → p.1 ∈ blockedOf items) ∧
    (∀ svc t its, svc (pyTake t 10000) = .ok its →
      (∀ p ∈ its, p.2 < SEVERITY_THRESHOLD) → (analyze_text svc t).safe = true) := by
  refine ⟨?_, ?_, fun p hp hsev => blockedOf_mem hp hsev, ?_⟩
  · rintro ⟨hm, hb, hsvc, hex⟩
    have himg := analyze_image_ok env.imageSvc doc.blob_url items hb hsvc
    have hne := isEmpty_false_of_ne_nil (blockedOf_ne_nil hex)
    unfold review_generated_media
    simp [hb, hm, himg, hne]
  · rintro ⟨hb, himgsafe, hws, hsvc, hex⟩
    have hbl := isBlankText_false_of_not_ws hws
    have htxt := analyze_text_ok env.textSvc (doc_to_reviewable_text doc) items hbl hsvc
    have hne := isEmpty_false_of_ne_nil (blockedOf_ne_nil hex)
    unfold review_generated_media review_generated_media.reviewTextAndLLM
    by_cases hm : doc.media_type = "image"
    · have hsafe := himgsafe hm
      simp [hb, hm, hsafe, hws, htxt, hne]
    · simp [hb, hm, hws, htxt, hne]
  · intro svc t its hsvc hlt
    unfold analyze_text
    by_cases hbl : isBlankText t = true
    · simp [hbl]
    · rw [if_neg (by simpa using hbl), hsvc]
      have : blockedOf its = [] := by
        simp only [blockedOf, List.map_eq_nil_iff, List.filter_eq_nil_iff]
        intro p hp
        simpa using Nat.not_le.mpr (hlt p hp)
      simp [collectCategories_blocked, this]

/-- C5 witness: a severity-5 Violence category on the image layer rejects
the record, names the category, and skips the LLM. -/
theorem safety_threshold_veto_witness :
    (review_generated_media "c5" (some c5Doc) c5Env).written =
      some ("rejected", "Image blocked by Azure Content Safety. Categories: " ++
        String.intercalate ", " (blockedOf [("Violence", 5)])) ∧
    (review_generated_media "c5" (some c5Doc) c5Env).llmImageCalled = false ∧
    (review_generated_media "c5" (some c5Doc) c5Env).llmTextCalled = false :=
  (safety_threshold_veto "c5" c5Doc c5Env [("Violence", 5)]).1
    ⟨rfl, by decide, rfl, by decide⟩

/-- C1 counterexample: the safety analysis raises on every call, yet the
persisted `media_review_status` is `approved` — `analyze_text` catches its
own exception and reports the content safe (fail-open, per the source
comment), so an approving LLM verdict goes through. -/
theorem safety_error_fail_open_cex :
    c1Env.textSvc (pyTake (doc_to_reviewable_text c1Doc) 10000) = .error "network down" ∧
    (review_generated_media "c1" (some c1Doc) c1Env).text_content_safety =
      some { safe := true, error := some "network down" } ∧
    (review_generated_media "c1" (some c1Doc) c1Env).written = some ("approved", "ok") := by
  refine ⟨rfl, ?_, ?_⟩ <;> decide

/-- C1 (amended): if the layer-2 LLM review call raises or returns
unparseable output, the gate persists `needs_revision` or (when layer 1
already vetoed, so the LLM was never consulted) `rejected`, and never
`approved`; a raised safety-analysis call, by contrast, is caught inside
the safety service and treated as safe (fail-open), so the final status
then follows the LLM verdict. -/
lemma llm_failed_verdict_text {o : LLMCallOutcome} (h : o.failed = true) :
    (llm_review_text o).verdict = some "NEEDS_REVISION" := by
  cases o with
  | parsed v s => simp [LLMCallOutcome.failed] at h
  | parseError raw => rfl
  | callError e => rfl

lemma llm_failed_verdict_image {o : LLMCallOutcome} (h : o.failed = true) :
    (llm_review_image o).verdict = some "NEEDS_REVISION" := by
  cases o with
  | parsed v s => simp [LLMCallOutcome.failed] at h
  | parseError raw => rfl
  | callError e => rfl

/-- When both LLM calls failed, the text layer plus layer 2 only ever
persist `needs_revision` or (text-layer veto) `rejected`. -/
lemma reviewTextAndLLM_failed_written {content_id : String} {doc : ContentRecord}
    {env : ReviewEnv} {imgs : Option SafetyResult} {st notes : String}
    (ht : env.llmText.failed = true) (hi : env.llmImage.failed = true)
    (hw : (review_generated_media.reviewTextAndLLM content_id doc env imgs).written =
      some (st, notes)) :
    st = "needs_revision" ∨ st = "rejected" := by
  unfold review_generated_media.reviewTextAndLLM review_generated_media.layer2 at hw
  have hverdict : ∀ b : Bool,
      ((if b then llm_review_image env.llmImage
        else llm_review_text env.llmText).verdict.getD "NEEDS_REVISION") =
        "NEEDS_REVISION" := by
    intro b
    cases b
    · rw [if_neg (by simp), llm_failed_verdict_text ht]; rfl
    · rw [if_pos rfl, llm_failed_verdict_image hi]; rfl
  by_cases hws : isAllWhitespace (doc_to_reviewable_text doc) = true
  · simp only [hws, Bool.not_true, Bool.false_eq_true, if_false] at hw
    rw [hverdict] at hw
    simp at hw
    exact Or.inl hw.1.symm
  · have hws' : isAllWhitespace (doc_to_reviewable_text doc) = false := by
      revert hws; cases isAllWhitespace (doc_to_reviewable_text doc) <;> simp
    simp only [hws', Bool.not_false, if_true] at hw
    by_cases hts : (analyze_text env.textSvc (doc_to_reviewable_text doc)).safe = true
    · simp only [hts, Bool.not_true, Bool.false_eq_true, if_false] at hw
      rw [hverdict] at hw
      simp at hw
      exact Or.inl hw.1.symm
    · have hts' : (analyze_text env.textSvc (doc_to_reviewable_text doc)).safe = false := by
        revert hts; cases (analyze_text env.textSvc (doc_to_reviewable_text doc)).safe <;> simp
      simp only [hts', Bool.not_false, if_true] at hw
      simp at hw
      exact Or.inr hw.1.symm

theorem llm_failure_fail_closed (content_id : String) (doc : ContentRecord)
    (env : ReviewEnv) (ht : env.llmText.failed = true) (hi : env.llmImage.failed = true) :
    (∀ st notes,
      (review_generated_media content_id (some doc) env).written = some (st, notes) →
      st = "needs_revision" ∨ st = "rejected") ∧
    (∀ notes,
      (review_generated_media content_id (some doc) env).written ≠
        some ("approved", notes)) := by
  have key : ∀ st notes,
      (review_generated_media content_id (some doc) env).written = some (st, notes) →
      st = "needs_revision" ∨ st = "rejected" := by
    intro st notes hw
    unfold review_generated_media at hw
    by_cases hb : (doc.blob_url == "") = true
    · simp [hb] at hw
    · simp only [hb, Bool.false_eq_true, if_false] at hw
      by_cases hm : (doc.media_type == "image") = true
      · simp only [hm, if_true] at hw
        by_cases hs : (analyze_image_from_url env.imageSvc doc.blob_url).safe = true
        · simp only [hs, Bool.not_true, Bool.false_eq_true, if_false] at hw
          exact reviewTextAndLLM_failed_written ht hi hw
        · have hs' : (analyze_image_from_url env.imageSvc doc.blob_url).safe = false := by
            revert hs; cases (analyze_image_from_url env.imageSvc doc.blob_url).safe <;> simp
          simp only [hs', Bool.not_false, if_true] at hw
          simp at hw
          exact Or.inr hw.1.symm
      · simp only [hm, Bool.false_eq_true, if_false] at hw
        exact reviewTextAndLLM_failed_written ht hi hw
  refine ⟨key, fun notes h => ?_⟩
  rcases key "approved" notes h with h' | h' <;> simp at h'

/-- C1 witness: a video record whose LLM review raises ends
`needs_revision`, never `approved`. -/
theorem llm_failure_fail_closed_witness :
    ("needs_revision" = "needs_revision" ∨ "needs_revision" = "rejected") ∧
    (review_generated_media "c1w" (some c1Doc)
        { textSvc := fun _ => .ok [], imageSvc := fun _ => .ok [],
          llmText := .callError "timeout", llmImage := .callError "timeout" }).written ≠
      some ("approved", "boom") :=
  ⟨(llm_failure_fail_closed "c1w" c1Doc
      { textSvc := fun _ => .ok [], imageSvc := fun _ => .ok [],
        llmText := .callError "timeout", llmImage := .callError "timeout" }
      rfl rfl).1 "needs_revision"
      (review_generated_media "c1w" (some c1Doc)
        { textSvc := fun _ => .ok [], imageSvc := fun _ => .ok [],
          llmText := .callError "timeout", llmImage := .callError "timeout" }).summary
      (by decide),
   (llm_failure_fail_closed "c1w" c1Doc
      { textSvc := fun _ => .ok [], imageSvc := fun _ => .ok [],
        llmText := .callError "timeout", llmImage := .callError "timeout" }
      rfl rfl).2 "boom"⟩

/-- C8 counterexample: when the provider reports failure (a raised status
check — `fal_client` reports failure by raising), the poll worker leaves
the record in `generation_status='submitted'` with no store update at all:
it is never marked `failed` and no error message is persisted. -/
theorem poll_failure_not_marked_failed_cex :
    c8Env.statusCheck = .error "fal job failed: infra error" ∧
    poll_check_item c8Item c8Env = (.ok (), c8Item, {}) ∧
    (poll_check_item c8Item c8Env).2.1.generation_status = "submitted" ∧
    (poll_check_item c8Item c8Env).2.2.storeUpdates = 0 := by
  refine ⟨rfl, ?_, ?_, ?_⟩ <;> rfl

/-- The review gate's store write never touches `generation_status`. -/
lemma applyReviewWrite_gen_status (r : ContentRecord) (o : ReviewOutcome) :
    (applyReviewWrite r o).generation_status = r.generation_status := by
  unfold applyReviewWrite
  split <;> simp [set_media_review_status]

/-- `_handle_completed` only ever moves a record to `completed` (or leaves
it untouched when an exception aborts first); in particular it never
produces `generation_status='failed'`. -/
lemma handle_completed_gen_status (content_id : String) (record : ContentRecord)
    (pre : Option GenResult) (env : GenWorkerEnv) :
    (handle_completed content_id record pre env).2.1.generation_status =
        record.generation_status ∨
    (handle_completed content_id record pre env).2.1.generation_status = "completed" := by
  simp only [handle_completed]
  split
  · exact Or.inl rfl
  · split
    · exact Or.inl rfl
    · split
      · exact Or.inl rfl
      · split
        · exact Or.inl rfl
        · right
          repeat' split
          all_goals simp [applyReviewWrite_gen_status]

/-- C8 (amended): on a provider status-check failure the poll worker
catches the exception, leaves the record untouched in `submitted` (so the
next poll tick re-queries and re-checks it), and performs no effects; the
poll loop never sets `generation_status='failed'` — the only transition it
ever makes is to `completed`. -/
theorem poll_failure_leaves_submitted (item : ContentRecord) (env : PollEnv) :
    (∀ e, env.statusCheck = .error e → poll_check_item item env = (.ok (), item, {})) ∧
    ((poll_check_item item env).2.1.generation_status = item.generation_status ∨
      (poll_check_item item env).2.1.generation_status = "completed") := by
  constructor
  · intro e he
    unfold poll_check_item
    by_cases h1 : (pyLower (item.generation_provider.getD "fal") ≠ "fal" ∨
        pyLower (item.generation_mode.getD "async") ≠ "async")
    · simp [h1]
    · by_cases h2 : (item.fal_request_id = "" ∨ item.fal_model_id = "")
      · rcases h2 with h2 | h2 <;> simp [h1, h2]
      · simp [h1, h2, he]
  · unfold poll_check_item
    by_cases h1 : (pyLower (item.generation_provider.getD "fal") ≠ "fal" ∨
        pyLower (item.generation_mode.getD "async") ≠ "async")
    · simp [h1]
    · by_cases h2 : (item.fal_request_id = "" ∨ item.fal_model_id = "")
      · rcases h2 with h2 | h2 <;> simp [h1, h2]
      · cases hs : env.statusCheck with
        | error e => simp [h1, h2, hs]
        | ok s =>
          cases s with
          | completed =>
            simpa [h1, h2, hs] using
              handle_completed_gen_status item.id item none env.handleEnv
          | queuedStatus => simp [h1, h2, hs]
          | inProgress => simp [h1, h2, hs]

/-- C8 witness: the concrete failing status check leaves the record
untouched. -/
theorem poll_failure_leaves_submitted_witness :
    poll_check_item c8Item c8Env = (.ok (), c8Item, {}) :=
  (poll_failure_leaves_submitted c8Item c8Env).1 "fal job failed: infra error" rfl

/-- C10 counterexample: two texts that agree on their first 10 000
characters (10 000 spaces) but differ afterwards get different
`SafetyResult`s under the same safety service: the whitespace-only guard
inspects the full text, so the first is reported safe without a call while
the second is analysed (and here blocked). -/
theorem analyze_text_prefix_cex :
    pyTake wsText 10000 = pyTake wsTextX 10000 ∧
    analyze_text hateSvc wsText ≠ analyze_text hateSvc wsTextX := by
  have hall : (List.replicate 10000 ' ').all Char.isWhitespace = true := by
    rw [List.all_eq_true]
    intro x hx
    rw [List.eq_of_mem_replicate hx]
    rfl
  have htake : (List.replicate 10000 ' ').take 10000 =
      (List.replicate 10000 ' ' ++ ['x']).take 10000 := by
    rw [List.take_append_of_le_length (by rw [List.length_replicate])]
  constructor
  · exact congrArg String.mk htake
  · have hblank : isBlankText wsText = true := by
      show ((List.replicate 10000 ' ').isEmpty ||
        (List.replicate 10000 ' ').all Char.isWhitespace) = true
      rw [hall, Bool.or_true]
    have hnot : isBlankText wsTextX = false := by
      show ((List.replicate 10000 ' ' ++ ['x']).isEmpty ||
        (List.replicate 10000 ' ' ++ ['x']).all Char.isWhitespace) = false
      have hne : List.replicate 10000 ' ' ++ ['x'] ≠ [] := by
        intro hcontra
        exact absurd (List.append_eq_nil.mp hcontra).2 (by decide)
      have hx : (['x'].all Char.isWhitespace) = false := by decide
      rw [List.all_append, List.isEmpty_eq_false.mpr hne, hx, Bool.and_false, Bool.or_false]
    have h1 : analyze_text hateSvc wsText = {} := by
      simp only [analyze_text, hblank]
      rw [if_pos trivial]
    have h2 : (analyze_text hateSvc wsTextX).safe = false := by
      simp only [analyze_text, hnot]
      rw [if_neg (by decide : ¬(false = true))]
      rfl
    intro h
    rw [← h, h1] at h2
    exact absurd h2 (by decide)

/-- C10 (amended): for texts that are not empty/whitespace-only the
analysis depends only on the first 10 000 characters — any two such texts
agreeing there get the same `SafetyResult` under the same service; and an
empty or whitespace-only text is reported safe with the default result,
independently of the service (no call is made). -/
theorem analyze_text_prefix_dependence :
    (∀ (svc : SafetyCall) (t1 t2 : String), isBlankText t1 = false →
      isBlankText t2 = false → pyTake t1 10000 = pyTake t2 10000 →
      analyze_text svc t1 = analyze_text svc t2) ∧
    (∀ (svc : SafetyCall) (t : String), isBlankText t = true →
      analyze_text svc t = {}) := by
  constructor
  · intro svc t1 t2 h1 h2 hp
    unfold analyze_text
    rw [if_neg (by simp [h1]), if_neg (by simp [h2]), hp]
  · intro svc t h
    unfold analyze_text
    rw [if_pos (by simp [h])]

/-- C10 witness: a whitespace-only text is safe by default even under a
service that blocks everything. -/
theorem analyze_text_prefix_dependence_witness :
    analyze_text hateSvc " " = {} :=
  analyze_text_prefix_dependence.2 hateSvc " " (by decide)

end ForgeLens
